import Mathlib

/-!
Shallow embedding of the `api-security-monitor` package (src/index.js): an
Express middleware that classifies inbound traffic as rate-abusive or
endpoint-scanning and temporarily blocks offending client IPs.  Timestamps are
modelled as `Int` milliseconds (JS `Date.now()`); configured windows and
thresholds are `Nat` (the package documents them as nonnegative counts and
seconds).  JS `Map`s are modelled as association lists in insertion order, JS
`Set`s as duplicate-free lists in insertion order, and fallible backend I/O as
`Except`.
-/

namespace APISecurityMonitor

/-- JS truthiness for an optional string: `undefined`/`null` and the empty
string are falsy, every other string is truthy. -/
def jsTruthyStr : Option String → Bool
  | none => false
  | some s => !(s == "")

/-- JS `a || d` where `a` is an optional string and `d` a string default. -/
def jsOrDefault (a : Option String) (d : String) : String :=
  if jsTruthyStr a then a.getD ("") else d

/-- JS `a || b` on optional strings (`b` may itself be absent). -/
def jsOrStr (a b : Option String) : Option String :=
  if jsTruthyStr a then a else b

/-- JS `v || d` on an optional number: `undefined` and `0` are falsy and give
the default. -/
def jsOrNat (v : Option Nat) (d : Nat) : Nat :=
  match v with
  | none => d
  | some n => if n = 0 then d else n

/-- JS `Map.get`: first binding for the key, if any. -/
def mapGet {α : Type} : List (String × α) → String → Option α
  | [], _ => none
  | (k1, v) :: rest, k => if k1 = k then some v else mapGet rest k

/-- JS `Map.set`: replace the binding in place if present, else append. -/
def mapSet {α : Type} : List (String × α) → String → α → List (String × α)
  | [], k, v => [(k, v)]
  | (k1, v1) :: rest, k, v =>
      if k1 = k then (k, v) :: rest else (k1, v1) :: mapSet rest k v

/-- JS `Map.delete`: drop every binding for the key. -/
def mapDelete {α : Type} : List (String × α) → String → List (String × α)
  | [], _ => []
  | (k1, v1) :: rest, k =>
      if k1 = k then mapDelete rest k else (k1, v1) :: mapDelete rest k

/-- JS `Set.add` on an insertion-ordered duplicate-free list. -/
def jsSetAdd (s : List String) (r : String) : List String :=
  if r ∈ s then s else s ++ [r]

@[simp]
theorem mapGet_nil {α : Type} (k : String) : mapGet ([] : List (String × α)) k = none := rfl

@[simp]
theorem mapGet_mapSet_self {α : Type} (m : List (String × α)) (k : String) (v : α) :
    mapGet (mapSet m k v) k = some v := by
  induction m with
  | nil => simp [mapSet, mapGet]
  | cons p rest ih =>
      obtain ⟨k1, v1⟩ := p
      by_cases h : k1 = k
      · simp [mapSet, mapGet, h]
      · simp [mapSet, mapGet, h, ih]

theorem mapGet_mapSet_ne {α : Type} (m : List (String × α)) {k k2 : String} (v : α)
    (h : k2 ≠ k) : mapGet (mapSet m k v) k2 = mapGet m k2 := by
  have hne : ¬ k = k2 := fun hk => h hk.symm
  induction m with
  | nil => simp [mapSet, mapGet, hne]
  | cons p rest ih =>
      obtain ⟨k1, v1⟩ := p
      by_cases h1 : k1 = k
      · subst h1
        simp [mapSet, mapGet, hne]
      · simp only [mapSet, if_neg h1, mapGet]
        by_cases h2 : k1 = k2 <;> simp [h2, ih]

@[simp]
theorem mapGet_mapDelete_self {α : Type} (m : List (String × α)) (k : String) :
    mapGet (mapDelete m k) k = none := by
  induction m with
  | nil => simp [mapDelete]
  | cons p rest ih =>
      obtain ⟨k1, v1⟩ := p
      by_cases h : k1 = k
      · simp [mapDelete, h, ih]
      · simp [mapDelete, mapGet, h, ih]

theorem mapSet_mapSet {α : Type} (m : List (String × α)) (k : String) (v w : α) :
    mapSet (mapSet m k v) k w = mapSet m k w := by
  induction m with
  | nil => simp [mapSet]
  | cons p rest ih =>
      obtain ⟨k1, v1⟩ := p
      by_cases h : k1 = k
      · simp [mapSet, h]
      · simp [mapSet, h, ih]

theorem jsSetAdd_nodup {s : List String} (r : String) (h : s.Nodup) :
    (jsSetAdd s r).Nodup := by
  unfold jsSetAdd
  by_cases hm : r ∈ s
  · simpa [hm]
  · simp only [hm, if_false]
    rw [List.nodup_append]
    refine ⟨h, List.nodup_singleton r, ?_⟩
    intro a ha hb
    rw [List.mem_singleton] at hb
    subst hb
    exact hm ha

theorem jsSetAdd_toFinset (s : List String) (r : String) :
    (jsSetAdd s r).toFinset = insert r s.toFinset := by
  unfold jsSetAdd
  by_cases hm : r ∈ s
  · simp only [hm, if_true]
    exact (Finset.insert_eq_self.mpr (List.mem_toFinset.mpr hm)).symm
  · simp only [hm, if_false, List.toFinset_append, List.toFinset_cons, List.toFinset_nil,
      insert_emptyc_eq]
    rw [Finset.union_comm, ← Finset.insert_eq]

/-! ## Data model (src/index.js, `APIMonitor`) -/

/-- Configuration thresholds resolved by the constructor (lines 33–35). -/
structure Config where
  maxRequests : Nat
  timeWindow : Nat
  scanThreshold : Nat
deriving DecidableEq

/-- One entry of `localBlockedIPs` (lines 315–318): expiry in ms plus reason. -/
structure BlockEntry where
  expiresAt : Int
  reason : String
deriving DecidableEq

/-- The three per-instance tracking maps of ephemeral mode (lines 48–50). -/
structure MonitorState where
  localRequestCounts : List (String × List Int)
  localRouteScans : List (String × List String)
  localBlockedIPs : List (String × BlockEntry)
deriving DecidableEq

/-- Payload of an `attack-detected` emission (lines 301–305). -/
structure AttackEvent where
  ip : String
  type : String
  timestamp : Int
deriving DecidableEq

/-- The 403 JSON body built by `getBlockInfo` (lines 270–290).
`blockedForSeconds` is the number rendered into the `blockedFor` string and
`blockedUntilMs` the epoch-ms instant rendered as the ISO-8601 `blockedUntil`. -/
structure BlockResponse where
  error : String
  reason : String
  blockedForSeconds : Int
  blockedUntilMs : Int
deriving DecidableEq

/-- Outcome of one middleware pass: either the pre-request gate answered with
`res.status(403).json(info)` (lines 191–194), or the request was passed to
`next()` (line 239). -/
inductive StepResult where
  | denied (status : Nat) (info : Option BlockResponse)
  | allowed
deriving DecidableEq

/-- The options bag accepted by the constructor.  Optional numbers may be the
explicit `0` (falsy in JS), which the constructor treats like absence. -/
structure Options where
  mongoURI : Option String := none
  redisURL : Option String := none
  maxRequests : Option Nat := none
  timeWindow : Option Nat := none
  scanThreshold : Option Nat := none
  saveRecords : Option Bool := none

/-- The two environment variables consulted by the constructor (lines 39–40). -/
structure Env where
  MONGO_URI : Option String := none
  REDIS_URL : Option String := none

/-- A constructed `APIMonitor` instance: resolved config, mode flag, backend
parameters (shared mode only), and the ephemeral tracking maps. -/
structure Monitor where
  cfg : Config
  saveRecords : Bool
  mongoURI : Option String
  redisURL : Option String
  st : MonitorState

/-- Request metadata read by `getClientIP` (lines 93–120): the two headers and
the transport-layer addresses, each possibly absent. -/
structure Request where
  xForwardedFor : Option String := none
  xRealIP : Option String := none
  connectionRemoteAddress : Option String := none
  socketRemoteAddress : Option String := none
  reqIp : Option String := none

/-! ## Constructor (lines 31–52) -/

/-- JS `constructor(options)`: resolve thresholds with `||` defaults; in
shared mode (`saveRecords` truthy) require `mongoURI` and `redisURL` from the
options or the environment and throw otherwise; in ephemeral mode initialise
the three empty local maps. -/
def APIMonitor.construct (options : Options) (env : Env) : Except String Monitor :=
  let maxRequests := jsOrNat options.maxRequests 10
  let timeWindow := jsOrNat options.timeWindow 60
  let scanThreshold := jsOrNat options.scanThreshold 5
  let saveRecords := options.saveRecords.getD false
  if saveRecords then
    let mongoURI := jsOrStr options.mongoURI env.MONGO_URI
    let redisURL := jsOrStr options.redisURL env.REDIS_URL
    if !(jsTruthyStr mongoURI) || !(jsTruthyStr redisURL) then
      .error ("mongoURI and redisURL are required when saveRecords is true")
    else
      .ok ⟨⟨maxRequests, timeWindow, scanThreshold⟩, true, mongoURI, redisURL, ⟨[], [], []⟩⟩
  else
    .ok ⟨⟨maxRequests, timeWindow, scanThreshold⟩, false, none, none, ⟨[], [], []⟩⟩

/-! ## Identity resolution (lines 93–120) -/

/-- JS split at commas, index 0: the (possibly empty) prefix of `s` before the
first comma. -/
def jsSplitFirstComma (s : String) : String :=
  String.mk (s.data.takeWhile (fun c => c ≠ ','))

/-- JS `String.prototype.trim`: strip leading and trailing whitespace. -/
def jsTrim (s : String) : String :=
  String.mk (((s.data.dropWhile Char.isWhitespace).reverse.dropWhile Char.isWhitespace).reverse)

/-- JS `s.startsWith(p)`. -/
def jsStartsWith (s p : String) : Bool :=
  p.data.isPrefixOf s.data

/-- JS `s.substring(n)` for codepoint strings. -/
def jsSubstringFrom (s : String) (n : Nat) : String :=
  String.mk (s.data.drop n)

/-- The normalisation tail of `getClientIP` (lines 110–117): loopback forms
collapse to `127.0.0.1`, any other `::ffff:` prefix is stripped. -/
def normalizeIP (ip : String) : String :=
  if ip = "::1" ∨ ip = "::ffff:127.0.0.1" then "127.0.0.1"
  else if jsStartsWith ip ("::ffff:") then jsSubstringFrom ip 7
  else ip

/-- JS `getClientIP(req)`: first comma-separated value of a truthy
`x-forwarded-for`, trimmed, else the `x-real-ip` / `connection.remoteAddress`
/ `socket.remoteAddress` / `req.ip` / `0.0.0.0` fallback chain, then
normalisation. -/
def getClientIP (req : Request) : String :=
  let ip :=
    if jsTruthyStr req.xForwardedFor then
      jsTrim (jsSplitFirstComma (req.xForwardedFor.getD ("")))
    else
      jsOrDefault req.xRealIP
        (jsOrDefault req.connectionRemoteAddress
          (jsOrDefault req.socketRemoteAddress
            (jsOrDefault req.reqIp ("0.0.0.0"))))
  normalizeIP ip

/-! ## Ephemeral tracking store (lines 151–175) -/

/-- JS `updateLocalTracking(ip, route)`: ensure both map entries exist, keep only
timestamps strictly inside the trailing window, append `now`, union the route
into the per-IP set, and report `(requestCount, scanCount)`.  Note that the
route set is not filtered by time. -/
def updateLocalTracking (cfg : Config) (st : MonitorState) (ip route : String)
    (now : Int) : (Nat × Nat) × MonitorState :=
  let windowStart : Int := now - cfg.timeWindow * 1000
  let counts0 :=
    if (mapGet st.localRequestCounts ip).isNone then mapSet st.localRequestCounts ip []
    else st.localRequestCounts
  let scans0 :=
    if (mapGet st.localRouteScans ip).isNone then mapSet st.localRouteScans ip []
    else st.localRouteScans
  let requests := ((mapGet counts0 ip).getD []).filter (fun t => decide (windowStart < t)) ++ [now]
  let counts1 := mapSet counts0 ip requests
  let newSet := jsSetAdd ((mapGet scans0 ip).getD []) route
  let scans1 := mapSet scans0 ip newSet
  ((requests.length, newSet.length),
   { localRequestCounts := counts1, localRouteScans := scans1,
     localBlockedIPs := st.localBlockedIPs })

/-! ## Classifier and attack handling (lines 292–325) -/

/-- The classification head of `handleAttackDetection` (lines 293–298): rate
abuse strictly before scan abuse, both strictly greater-than. -/
def classify (cfg : Config) (requestCount scanCount : Nat) : Option String :=
  if requestCount > cfg.maxRequests then some ("DDoS (Excessive Requests)")
  else if scanCount > cfg.scanThreshold then some ("Path Scanning")
  else none

/-- The ephemeral branch of `handleAttackDetection` (lines 300–324): on a
verdict, emit one `attack-detected` event, install the block entry expiring
300 s (300000 ms) later, and delete both tracking entries; otherwise do
nothing. -/
def handleAttackDetection (cfg : Config) (st : MonitorState) (ip : String)
    (requestCount scanCount : Nat) (now : Int) : List AttackEvent × MonitorState :=
  match classify cfg requestCount scanCount with
  | none => ([], st)
  | some attackType =>
      ([⟨ip, attackType, now⟩],
       { localRequestCounts := mapDelete st.localRequestCounts ip,
         localRouteScans := mapDelete st.localRouteScans ip,
         localBlockedIPs := mapSet st.localBlockedIPs ip ⟨now + 300 * 1000, attackType⟩ })

/-! ## Ephemeral blocklist (lines 248–290) -/

/-- The ephemeral branch of `isIPBlocked` (lines 257–267): absent entry means
not blocked; a found-but-expired entry (`now >= expiresAt`) is deleted and
reported not blocked; otherwise blocked. -/
def isIPBlocked (st : MonitorState) (ip : String) (now : Int) : Bool × MonitorState :=
  match mapGet st.localBlockedIPs ip with
  | none => (false, st)
  | some b =>
      if b.expiresAt ≤ now then
        (false, { st with localBlockedIPs := mapDelete st.localBlockedIPs ip })
      else (true, st)

/-- The denial message on line 275/284. -/
def deniedMsg : String := "🚫 Access denied due to suspicious activity"

/-- The ephemeral branch of `getBlockInfo` (lines 280–289).  `Math.ceil` of
the nonnegative remaining ms is `(x + 999) / 1000`; `none` models the JS
`TypeError` raised when no entry exists (caller contract: check first). -/
def getBlockInfo (st : MonitorState) (ip : String) (now : Int) : Option BlockResponse :=
  (mapGet st.localBlockedIPs ip).map fun b =>
    ⟨deniedMsg, b.reason, (b.expiresAt - now + 999) / 1000, b.expiresAt⟩

/-! ## Ephemeral middleware pass (lines 183–240) -/

/-- One pass of `monitorMiddleware` in ephemeral mode, after identity
resolution: gate on `isIPBlocked` (403 short-circuit), else track, classify
and handle, then `next()`.  Returns the step outcome, the `attack-detected`
emissions of this pass, and the new state. -/
def monitorStep (cfg : Config) (st : MonitorState) (ip route : String) (now : Int) :
    (StepResult × List AttackEvent) × MonitorState :=
  let gate := isIPBlocked st ip now
  if gate.1 then
    ((.denied 403 (getBlockInfo gate.2 ip now), []), gate.2)
  else
    let tracked := updateLocalTracking cfg gate.2 ip route now
    let handled := handleAttackDetection cfg tracked.2 ip tracked.1.1 tracked.1.2 now
    ((.allowed, handled.1), handled.2)

/-- Full `monitorMiddleware` including identity resolution (line 185). -/
def monitorMiddleware (cfg : Config) (st : MonitorState) (req : Request)
    (route : String) (now : Int) : (StepResult × List AttackEvent) × MonitorState :=
  monitorStep cfg st (getClientIP req) route now

/-- A sequence of middleware passes for one identity: each element is
`(route, timestamp)` in arrival order. -/
def processSeq (cfg : Config) (st : MonitorState) (ip : String) :
    List (String × Int) → List (StepResult × List AttackEvent) × MonitorState
  | [] => ([], st)
  | (route, t) :: rest =>
      let step := monitorStep cfg st ip route t
      let tail := processSeq cfg step.2 ip rest
      (step.1 :: tail.1, tail.2)

/-! ## Shared backend (Redis) model

The shared-backend mode talks to an external Redis store.  The store is
modelled as key/value and key/set tables plus a reachability flag; every
command fails with `redisErr` exactly when the backend is unreachable.  TTLs
are recorded symbolically (`ttls`); clock-driven eviction of shared keys is
outside the claims proved here. -/

/-- State of the external shared store. -/
structure RedisState where
  reachable : Bool
  kv : List (String × String)
  sets : List (String × List String)
  ttls : List (String × Nat)
deriving DecidableEq

/-- The error surfaced by any command against an unreachable backend. -/
def redisErr : String := "redis unreachable"

/-- Command `redis.get(k)`: the stored string or `null`. -/
def RedisState.get (r : RedisState) (k : String) : Except String (Option String) :=
  if r.reachable then .ok (mapGet r.kv k) else .error redisErr

/-- Command `redis.set(k, v, EX, ex)`. -/
def RedisState.setEx (r : RedisState) (k v : String) (ex : Nat) : Except String RedisState :=
  if r.reachable then
    .ok { r with kv := mapSet r.kv k v, ttls := mapSet r.ttls k ex }
  else .error redisErr

/-- Command `redis.incr(k)`: numeric increment of the stored counter (absent counts
as 0), re-stored as a string. -/
def RedisState.incr (r : RedisState) (k : String) : Except String RedisState :=
  if r.reachable then
    .ok { r with kv := mapSet r.kv k (toString ((((mapGet r.kv k).getD ("0")).toNat?).getD 0 + 1)) }
  else .error redisErr

/-- Command `redis.expire(k, seconds)`: refresh the symbolic TTL. -/
def RedisState.expire (r : RedisState) (k : String) (seconds : Nat) : Except String RedisState :=
  if r.reachable then .ok { r with ttls := mapSet r.ttls k seconds } else .error redisErr

/-- Command `redis.sadd(k, member)`. -/
def RedisState.sadd (r : RedisState) (k member : String) : Except String RedisState :=
  if r.reachable then
    .ok { r with sets := mapSet r.sets k (jsSetAdd ((mapGet r.sets k).getD []) member) }
  else .error redisErr

/-- Command `redis.scard(k)`: cardinality of the stored set. -/
def RedisState.scard (r : RedisState) (k : String) : Except String Nat :=
  if r.reachable then .ok ((mapGet r.sets k).getD []).length else .error redisErr

/-- Command `redis.ttl(k)`: the recorded TTL, `-2` when the key is absent. -/
def RedisState.ttl (r : RedisState) (k : String) : Except String Int :=
  if r.reachable then .ok (((mapGet r.ttls k).map (Int.ofNat)).getD (-2)) else .error redisErr

/-- JS `parseInt` applied to `redis.get`s answer: `null` or a non-numeric string
behaves, for the two strictly-greater comparisons of the classifier, like 0. -/
def jsParseCount (s : Option String) : Nat := (((s.getD ("")).toNat?).getD 0)

/-- The shared branch of `isIPBlocked` (lines 249–256): `!!` of the stored
value, with any backend error caught and turned into `false`. -/
def isIPBlockedShared (redis : RedisState) (ip : String) : Bool :=
  match redis.get ("blocked:" ++ ip) with
  | .ok v => jsTruthyStr v
  | .error _ => false

/-- The shared branch of `getBlockInfo` (lines 271–279): TTL and reason reads
are not guarded by any catch. -/
def getBlockInfoShared (redis : RedisState) (ip : String) (now : Int) :
    Except String BlockResponse := do
  let ttl ← redis.ttl ("blocked:" ++ ip)
  let reason ← redis.get ("blocked:" ++ ip ++ ":reason")
  .ok ⟨deniedMsg, (if jsTruthyStr reason then reason.getD ("") else "Rate limit exceeded"),
    ttl, now + ttl * 1000⟩

/-- The shared branch of `handleAttackDetection` (lines 308–312): on a
verdict, emit one event and install the two blocked keys with a 300 s expiry;
the writes are not guarded by any catch. -/
def handleAttackDetectionShared (cfg : Config) (redis : RedisState) (ip : String)
    (requestCount scanCount : Nat) (now : Int) :
    Except String (List AttackEvent × RedisState) :=
  match classify cfg requestCount scanCount with
  | none => .ok ([], redis)
  | some attackType => do
      let r1 ← redis.setEx ("blocked:" ++ ip) ("1") 300
      let r2 ← r1.setEx ("blocked:" ++ ip ++ ":reason") attackType 300
      .ok ([⟨ip, attackType, now⟩], r2)

/-- One pass of `monitorMiddleware` in shared mode (lines 196–211), after
identity resolution: the blocked gate (errors caught inside `isIPBlocked`),
then the unguarded counting commands, then classification and handling.  A
`.error` outcome models the middleware promise rejecting into the pipeline. -/
def monitorMiddlewareShared (cfg : Config) (redis : RedisState) (ip route : String)
    (now : Int) : Except String ((StepResult × List AttackEvent) × RedisState) :=
  if isIPBlockedShared redis ip then do
    let info ← getBlockInfoShared redis ip now
    .ok ((.denied 403 (some info), []), redis)
  else do
    let requestKey := "req_count:" ++ ip
    let scanKey := "scan_count:" ++ ip
    let r1 ← redis.incr requestKey
    let r2 ← r1.expire requestKey cfg.timeWindow
    let r3 ← r2.sadd scanKey route
    let r4 ← r3.expire scanKey cfg.timeWindow
    let requestCount ← r4.get requestKey
    let scanCount ← r4.scard scanKey
    let handled ← handleAttackDetectionShared cfg r4 ip (jsParseCount requestCount) scanCount now
    .ok ((.allowed, handled.1), handled.2)

/-! ## Characterisation lemmas for the ephemeral engine -/

/-- Closed form of `updateLocalTracking`: the returned counts and the new
state, expressed through the previous per-IP observations. -/
theorem updateLocalTracking_spec (cfg : Config) (st : MonitorState) (ip route : String)
    (now : Int) :
    updateLocalTracking cfg st ip route now =
      (((((mapGet st.localRequestCounts ip).getD []).filter
            (fun t => decide (now - cfg.timeWindow * 1000 < t)) ++ [now]).length,
        (jsSetAdd ((mapGet st.localRouteScans ip).getD []) route).length),
       ⟨mapSet st.localRequestCounts ip
          (((mapGet st.localRequestCounts ip).getD []).filter
            (fun t => decide (now - cfg.timeWindow * 1000 < t)) ++ [now]),
        mapSet st.localRouteScans ip (jsSetAdd ((mapGet st.localRouteScans ip).getD []) route),
        st.localBlockedIPs⟩) := by
  unfold updateLocalTracking
  rcases hc : mapGet st.localRequestCounts ip with _ | ts <;>
    rcases hs : mapGet st.localRouteScans ip with _ | rs <;>
      simp [hc, hs, mapSet_mapSet, mapGet_mapSet_self]

/-- A pass for an unblocked identity whose updated counts stay at or below
both thresholds: the request is passed on with no emission, the timestamp is
appended, the route unioned, and the blocklist untouched. -/
theorem monitorStep_ok (cfg : Config) (st : MonitorState) (ip route : String) (now : Int)
    (ts : List Int) (rs : List String)
    (hts : (mapGet st.localRequestCounts ip).getD [] = ts)
    (hrs : (mapGet st.localRouteScans ip).getD [] = rs)
    (hbl : mapGet st.localBlockedIPs ip = none)
    (hwin : ∀ a ∈ ts, now - cfg.timeWindow * 1000 < a)
    (hc : ts.length + 1 ≤ cfg.maxRequests)
    (hs : (jsSetAdd rs route).length ≤ cfg.scanThreshold) :
    monitorStep cfg st ip route now =
      ((.allowed, []),
       ⟨mapSet st.localRequestCounts ip (ts ++ [now]),
        mapSet st.localRouteScans ip (jsSetAdd rs route),
        st.localBlockedIPs⟩) := by
  have hfilter : ts.filter (fun t => decide (now - cfg.timeWindow * 1000 < t)) = ts :=
    List.filter_eq_self.mpr (fun a ha => decide_eq_true (hwin a ha))
  have hgate : isIPBlocked st ip now = (false, st) := by simp [isIPBlocked, hbl]
  have hcl : classify cfg (ts.length + 1) (jsSetAdd rs route).length = none := by
    unfold classify
    rw [if_neg (by omega), if_neg (by omega)]
  simp only [monitorStep, hgate]
  rw [updateLocalTracking_spec]
  simp only [hts, hrs, hfilter]
  simp [handleAttackDetection, hcl]

/-- A pass for an unblocked identity whose updated request count strictly
exceeds `maxRequests`: the request is still passed on, one rate-abuse event is
emitted, the block entry is installed for 300 s, and the tracking entries are
deleted. -/
theorem monitorStep_ddos (cfg : Config) (st : MonitorState) (ip route : String) (now : Int)
    (ts : List Int)
    (hts : (mapGet st.localRequestCounts ip).getD [] = ts)
    (hbl : mapGet st.localBlockedIPs ip = none)
    (hwin : ∀ a ∈ ts, now - cfg.timeWindow * 1000 < a)
    (hc : cfg.maxRequests < ts.length + 1) :
    monitorStep cfg st ip route now =
      ((.allowed, [⟨ip, ("DDoS (Excessive Requests)"), now⟩]),
       ⟨mapDelete (mapSet st.localRequestCounts ip (ts ++ [now])) ip,
        mapDelete (mapSet st.localRouteScans ip
          (jsSetAdd ((mapGet st.localRouteScans ip).getD []) route)) ip,
        mapSet st.localBlockedIPs ip ⟨now + 300 * 1000, ("DDoS (Excessive Requests)")⟩⟩) := by
  have hfilter : ts.filter (fun t => decide (now - cfg.timeWindow * 1000 < t)) = ts :=
    List.filter_eq_self.mpr (fun a ha => decide_eq_true (hwin a ha))
  have hgate : isIPBlocked st ip now = (false, st) := by simp [isIPBlocked, hbl]
  have hcl : classify cfg (ts.length + 1)
      (jsSetAdd ((mapGet st.localRouteScans ip).getD []) route).length
      = some ("DDoS (Excessive Requests)") := by
    unfold classify
    rw [if_pos (by omega)]
  simp only [monitorStep, hgate]
  rw [updateLocalTracking_spec]
  simp only [hts, hfilter]
  simp [handleAttackDetection, hcl]

/-- A pass for a currently blocked identity (unexpired entry): 403 denial
built from the entry, no emission, and the state is returned untouched. -/
theorem monitorStep_blocked (cfg : Config) (st : MonitorState) (ip route : String)
    (now : Int) (b : BlockEntry)
    (hb : mapGet st.localBlockedIPs ip = some b)
    (hnow : now < b.expiresAt) :
    monitorStep cfg st ip route now =
      ((.denied 403 (some ⟨deniedMsg, b.reason, (b.expiresAt - now + 999) / 1000,
          b.expiresAt⟩), []), st) := by
  have hgate : isIPBlocked st ip now = (true, st) := by
    simp [isIPBlocked, hb, if_neg (by omega : ¬ b.expiresAt ≤ now)]
  simp [monitorStep, hgate, getBlockInfo, hb]

/-- Denials leave the engine state fixed, so an identity blocked until
`b.expiresAt` keeps answering 403 to every request before that instant. -/
theorem processSeq_blocked (cfg : Config) (st : MonitorState) (ip : String) (b : BlockEntry)
    (hb : mapGet st.localBlockedIPs ip = some b) :
    ∀ reqs : List (String × Int), (∀ p ∈ reqs, p.2 < b.expiresAt) →
    processSeq cfg st ip reqs =
      (reqs.map (fun p =>
        ((StepResult.denied 403 (some ⟨deniedMsg, b.reason,
            (b.expiresAt - p.2 + 999) / 1000, b.expiresAt⟩)), ([] : List AttackEvent))),
       st) := by
  intro reqs
  induction reqs with
  | nil => intro _; simp [processSeq]
  | cons p rest ih =>
      intro hall
      obtain ⟨route, t⟩ := p
      have hstep := monitorStep_blocked cfg st ip route t b hb
        (hall (route, t) (List.mem_cons_self _ _))
      have hrest := ih (fun q hq => hall q (List.mem_cons_of_mem _ hq))
      simp [processSeq, hstep, hrest]

/-- Main safe-prefix induction: starting from per-IP-clean observations, as
long as the cumulative request count stays at or below `maxRequests`, the
distinct routes stay at or below `scanThreshold`, and all timestamps lie in
one `timeWindow`, every pass is `allowed` with no emission, the timestamps
accumulate, and the identity stays unblocked. -/
theorem processSeq_ok (cfg : Config) (ip : String) :
    ∀ (reqs : List (String × Int)) (st : MonitorState) (ts : List Int) (rs : List String),
    (mapGet st.localRequestCounts ip).getD [] = ts →
    (mapGet st.localRouteScans ip).getD [] = rs →
    mapGet st.localBlockedIPs ip = none →
    rs.Nodup →
    (∀ a ∈ ts ++ reqs.map Prod.snd, ∀ b ∈ reqs.map Prod.snd,
      b - cfg.timeWindow * 1000 < a) →
    ts.length + reqs.length ≤ cfg.maxRequests →
    ((rs ++ reqs.map Prod.fst).toFinset).card ≤ cfg.scanThreshold →
    (processSeq cfg st ip reqs).1 =
        reqs.map (fun _ => ((StepResult.allowed), ([] : List AttackEvent))) ∧
    (mapGet (processSeq cfg st ip reqs).2.localRequestCounts ip).getD []
        = ts ++ reqs.map Prod.snd ∧
    mapGet (processSeq cfg st ip reqs).2.localBlockedIPs ip = none := by
  intro reqs
  induction reqs with
  | nil =>
      intro st ts rs hts hrs hbl _ _ _ _
      simp [processSeq, hts, hbl]
  | cons p rest ih =>
      intro st ts rs hts hrs hbl hnodup hwin hcount hscan
      obtain ⟨route, t⟩ := p
      have hwin1 : ∀ a ∈ ts, t - cfg.timeWindow * 1000 < a := by
        intro a ha
        exact hwin a (by simp [ha]) t (by simp)
      have hc1 : ts.length + 1 ≤ cfg.maxRequests := by
        simp only [List.length_cons] at hcount; omega
      have hnodup1 : (jsSetAdd rs route).Nodup := jsSetAdd_nodup route hnodup
      have hsub : (jsSetAdd rs route).toFinset ⊆
          (rs ++ (route :: rest.map Prod.fst)).toFinset := by
        rw [jsSetAdd_toFinset, List.toFinset_append, List.toFinset_cons]
        intro x hx
        rcases Finset.mem_insert.mp hx with h | h
        · exact h ▸ Finset.mem_union_right _ (Finset.mem_insert_self _ _)
        · exact Finset.mem_union_left _ h
      have hs1 : (jsSetAdd rs route).length ≤ cfg.scanThreshold := by
        calc (jsSetAdd rs route).length = (jsSetAdd rs route).toFinset.card :=
              (List.toFinset_card_of_nodup hnodup1).symm
          _ ≤ ((rs ++ (route :: rest.map Prod.fst)).toFinset).card :=
              Finset.card_le_card hsub
          _ ≤ cfg.scanThreshold := by simpa using hscan
      have hstep := monitorStep_ok cfg st ip route t ts rs hts hrs hbl hwin1 hc1 hs1
      have hts1 : (mapGet (mapSet st.localRequestCounts ip (ts ++ [t])) ip).getD []
          = ts ++ [t] := by simp
      have hrs1 : (mapGet (mapSet st.localRouteScans ip (jsSetAdd rs route)) ip).getD []
          = jsSetAdd rs route := by simp
      have hwin2 : ∀ a ∈ (ts ++ [t]) ++ rest.map Prod.snd, ∀ b ∈ rest.map Prod.snd,
          b - cfg.timeWindow * 1000 < a := by
        intro a ha b hb
        refine hwin a ?_ b ?_
        · simp only [List.append_assoc, List.singleton_append] at ha
          simpa using ha
        · simp [hb]
      have hcount2 : (ts ++ [t]).length + rest.length ≤ cfg.maxRequests := by
        have h1 : (ts ++ [t]).length = ts.length + 1 := by simp
        rw [h1]
        simp only [List.length_cons] at hcount
        omega
      have hscan2 : ((jsSetAdd rs route ++ rest.map Prod.fst).toFinset).card
          ≤ cfg.scanThreshold := by
        have heq : (jsSetAdd rs route ++ rest.map Prod.fst).toFinset
            = (rs ++ (route :: rest.map Prod.fst)).toFinset := by
          rw [List.toFinset_append, jsSetAdd_toFinset, List.toFinset_append,
            List.toFinset_cons, Finset.insert_union, Finset.union_insert]
        rw [heq]
        simpa using hscan
      have hrec := ih (⟨mapSet st.localRequestCounts ip (ts ++ [t]),
          mapSet st.localRouteScans ip (jsSetAdd rs route), st.localBlockedIPs⟩)
        (ts ++ [t]) (jsSetAdd rs route) hts1 hrs1 hbl hnodup1 hwin2 hcount2 hscan2
      refine ⟨?_, ?_, ?_⟩
      · simp [processSeq, hstep, hrec.1]
      · simp [processSeq, hstep, hrec.2.1]
      · simp [processSeq, hstep, hrec.2.2]

/-! ## Claim theorems -/

/-- Claim C2: the classifier is a pure function of the counts and thresholds:
rate abuse exactly when `requestCount > maxRequests`, evaluated first; only
otherwise scan abuse exactly when `distinctRouteCount > scanThreshold`;
otherwise no verdict.  Both comparisons are strict, so counts equal to the
thresholds yield no verdict. -/
theorem claim2_classifier_precedence (cfg : Config) (rc sc : Nat) :
    (classify cfg rc sc = some ("DDoS (Excessive Requests)") ↔ cfg.maxRequests < rc) ∧
    (rc ≤ cfg.maxRequests →
      (classify cfg rc sc = some ("Path Scanning") ↔ cfg.scanThreshold < sc)) ∧
    (classify cfg rc sc = none ↔ (rc ≤ cfg.maxRequests ∧ sc ≤ cfg.scanThreshold)) ∧
    classify cfg cfg.maxRequests cfg.scanThreshold = none := by
  have hne : ("Path Scanning" : String) ≠ ("DDoS (Excessive Requests)") := by decide
  have h4 : classify cfg cfg.maxRequests cfg.scanThreshold = none := by
    unfold classify
    rw [if_neg (lt_irrefl _), if_neg (lt_irrefl _)]
  refine ⟨?_, ?_, ?_, h4⟩ <;>
    (unfold classify
     by_cases h1 : cfg.maxRequests < rc <;> by_cases h2 : cfg.scanThreshold < sc <;>
       simp [h1, h2, hne] <;> omega)

/-- Witness for C2 at concrete counts: above-rate, above-scan, and
both-at-threshold inputs. -/
theorem claim2_witness :
    classify ⟨10, 60, 5⟩ 11 0 = some ("DDoS (Excessive Requests)") ∧
    classify ⟨10, 60, 5⟩ 10 6 = some ("Path Scanning") ∧
    classify ⟨10, 60, 5⟩ 10 5 = none :=
  ⟨(claim2_classifier_precedence ⟨10, 60, 5⟩ 11 0).1.mpr (by decide),
   ((claim2_classifier_precedence ⟨10, 60, 5⟩ 10 6).2.1 (by decide)).mpr (by decide),
   (claim2_classifier_precedence ⟨10, 60, 5⟩ 10 5).2.2.1.mpr (by decide)⟩

/-- Claim C4: ephemeral `isIPBlocked` is true iff an entry exists with
`now < expiresAt`; a found-but-expired entry yields false and is removed, so
any subsequent query also reports not blocked. -/
theorem claim4_isBlocked_semantics (st : MonitorState) (ip : String) (now : Int) :
    ((isIPBlocked st ip now).1 = true ↔
      ∃ b, mapGet st.localBlockedIPs ip = some b ∧ now < b.expiresAt) ∧
    (∀ b, mapGet st.localBlockedIPs ip = some b → b.expiresAt ≤ now →
      (isIPBlocked st ip now).1 = false ∧
      mapGet (isIPBlocked st ip now).2.localBlockedIPs ip = none ∧
      ∀ later, (isIPBlocked (isIPBlocked st ip now).2 ip later).1 = false) := by
  constructor
  · rcases hb : mapGet st.localBlockedIPs ip with _ | b
    · simp [isIPBlocked, hb]
    · by_cases hexp : b.expiresAt ≤ now
      · simp [isIPBlocked, hb, hexp]
      · simp [isIPBlocked, hb, hexp]
        omega
  · intro b hb hexp
    refine ⟨?_, ?_, ?_⟩
    · simp [isIPBlocked, hb, hexp]
    · simp [isIPBlocked, hb, hexp]
    · intro later
      simp [isIPBlocked, hb, hexp]

/-- Witness for C4: a concrete expired entry is reported unblocked and a
subsequent query (at an even earlier clock) still reports unblocked because
the entry is gone. -/
theorem claim4_witness :
    (isIPBlocked ⟨[], [], [(("1.2.3.4"), ⟨1000, ("manual")⟩)]⟩ ("1.2.3.4") 2000).1 = false ∧
    (isIPBlocked (isIPBlocked ⟨[], [], [(("1.2.3.4"), ⟨1000, ("manual")⟩)]⟩
        ("1.2.3.4") 2000).2 ("1.2.3.4") 500).1 = false := by
  have h := (claim4_isBlocked_semantics ⟨[], [], [(("1.2.3.4"), ⟨1000, ("manual")⟩)]⟩
      ("1.2.3.4") 2000).2 ⟨1000, ("manual")⟩ rfl (by decide)
  exact ⟨h.1, h.2.2 500⟩

/-- Claim C7: every verdict results in exactly one block installation whose
reason is that single verdict and whose expiry is `now` + 300 s, exactly one
`attack-detected` emission, and, on the ephemeral backend, deletion of the
request-timestamp and route-set entries of the identity; no verdict changes
nothing and emits nothing.  The reachable shared branch likewise emits once
and installs the two blocked keys with a 300 s expiry. -/
theorem claim7_verdict_effects (cfg : Config) (st : MonitorState) (ip : String)
    (rc sc : Nat) (now : Int) :
    (∀ t, classify cfg rc sc = some t →
      handleAttackDetection cfg st ip rc sc now =
        ([⟨ip, t, now⟩],
         ⟨mapDelete st.localRequestCounts ip, mapDelete st.localRouteScans ip,
          mapSet st.localBlockedIPs ip ⟨now + 300 * 1000, t⟩⟩)) ∧
    (classify cfg rc sc = none →
      handleAttackDetection cfg st ip rc sc now = ([], st)) ∧
    (∀ redis : RedisState, redis.reachable = true → ∀ t, classify cfg rc sc = some t →
      handleAttackDetectionShared cfg redis ip rc sc now =
        .ok ([⟨ip, t, now⟩],
          { redis with
            kv := mapSet (mapSet redis.kv ("blocked:" ++ ip) ("1"))
              ("blocked:" ++ ip ++ ":reason") t,
            ttls := mapSet (mapSet redis.ttls ("blocked:" ++ ip) 300)
              ("blocked:" ++ ip ++ ":reason") 300 })) := by
  refine ⟨?_, ?_, ?_⟩
  · intro t ht
    simp [handleAttackDetection, ht]
  · intro ht
    simp [handleAttackDetection, ht]
  · intro redis hr t ht
    simp [handleAttackDetectionShared, ht, RedisState.setEx, hr, Bind.bind, Except.bind]

/-- Witness for C7: a concrete over-rate count produces the single event, the
block entry at `now + 300000` ms, and empties both tracking entries. -/
theorem claim7_witness :
    handleAttackDetection ⟨10, 60, 5⟩ ⟨[(("5.5.5.5"), [0])], [(("5.5.5.5"), [("/")])], []⟩
        ("5.5.5.5") 11 1 77 =
      ([⟨("5.5.5.5"), ("DDoS (Excessive Requests)"), 77⟩],
       ⟨[], [], [(("5.5.5.5"), ⟨300077, ("DDoS (Excessive Requests)")⟩)]⟩) := by
  have h := (claim7_verdict_effects ⟨10, 60, 5⟩
      ⟨[(("5.5.5.5"), [0])], [(("5.5.5.5"), [("/")])], []⟩ ("5.5.5.5") 11 1 77).1
      ("DDoS (Excessive Requests)") rfl
  rw [h]
  rfl

/-- Claim C3: every request from a currently blocked identity (unexpired
entry) is answered with a 403 denial built from the stored reason and leaves
the whole engine state — request timestamps, route sets, and block entries —
untouched; hence an identity all of whose requests arrive while blocked never
acquires tracking state. -/
theorem claim3_blocked_frame (cfg : Config) (st : MonitorState) (ip : String)
    (b : BlockEntry) (hb : mapGet st.localBlockedIPs ip = some b)
    (reqs : List (String × Int)) (hall : ∀ p ∈ reqs, p.2 < b.expiresAt) :
    processSeq cfg st ip reqs =
      (reqs.map (fun p =>
        ((StepResult.denied 403 (some ⟨deniedMsg, b.reason,
            (b.expiresAt - p.2 + 999) / 1000, b.expiresAt⟩)), ([] : List AttackEvent))),
       st) := by
  revert hall
  induction reqs with
  | nil => intro _; simp [processSeq]
  | cons p rest ih =>
      intro hall
      obtain ⟨route, t⟩ := p
      have hstep := monitorStep_blocked cfg st ip route t b hb
        (hall (route, t) (List.mem_cons_self _ _))
      have hrest := ih (fun q hq => hall q (List.mem_cons_of_mem _ hq))
      simp [processSeq, hstep, hrest]

/-- Witness for C3: spec scenario C — an identity pre-blocked with reason
"manual" for 300 s is denied 403 with that reason on its very next request
and no tracking state is created. -/
theorem claim3_witness :
    processSeq ⟨10, 60, 5⟩ ⟨[], [], [(("7.7.7.7"), ⟨300000, ("manual")⟩)]⟩ ("7.7.7.7")
        [(("/a"), 5)] =
      ([(StepResult.denied 403 (some ⟨deniedMsg, ("manual"), 300, 300000⟩), [])],
       ⟨[], [], [(("7.7.7.7"), ⟨300000, ("manual")⟩)]⟩) := by
  have h := claim3_blocked_frame ⟨10, 60, 5⟩ ⟨[], [], [(("7.7.7.7"), ⟨300000, ("manual")⟩)]⟩
    ("7.7.7.7") ⟨300000, ("manual")⟩ rfl [(("/a"), 5)] (by decide)
  rw [h]
  rfl

/-- Claim C1 (amended: the sequence must also touch at most `scanThreshold`
distinct routes, else a scan verdict can fire earlier): for every identity
and every such sequence inside one time window starting from clean state, the
first `maxRequests` requests produce no verdict, request `maxRequests + 1` is
classified rate-abusive (`DDoS (Excessive Requests)`) yet itself allowed to
proceed, and every request from `maxRequests + 2` onward while the block is
unexpired is denied 403 at the pre-request gate with the state unchanged. -/
theorem claim1_rate_limit_trajectory (cfg : Config) (ip : String)
    (pre : List (String × Int)) (lastRoute : String) (lastT : Int)
    (hlen : pre.length = cfg.maxRequests)
    (hwin : ∀ a ∈ pre.map Prod.snd ++ [lastT], ∀ b ∈ pre.map Prod.snd ++ [lastT],
      b - cfg.timeWindow * 1000 < a)
    (hscan : ((pre.map Prod.fst ++ [lastRoute]).toFinset).card ≤ cfg.scanThreshold) :
    (processSeq cfg ⟨[], [], []⟩ ip pre).1 =
        pre.map (fun _ => ((StepResult.allowed), ([] : List AttackEvent))) ∧
    (monitorStep cfg (processSeq cfg ⟨[], [], []⟩ ip pre).2 ip lastRoute lastT).1 =
        (StepResult.allowed, [⟨ip, ("DDoS (Excessive Requests)"), lastT⟩]) ∧
    (∀ route2 t2, t2 < lastT + 300 * 1000 →
      monitorStep cfg (monitorStep cfg (processSeq cfg ⟨[], [], []⟩ ip pre).2
          ip lastRoute lastT).2 ip route2 t2 =
        ((StepResult.denied 403 (some ⟨deniedMsg, ("DDoS (Excessive Requests)"),
            (lastT + 300 * 1000 - t2 + 999) / 1000, lastT + 300 * 1000⟩), []),
         (monitorStep cfg (processSeq cfg ⟨[], [], []⟩ ip pre).2 ip lastRoute lastT).2)) := by
  have hwinPre : ∀ a ∈ ([] : List Int) ++ pre.map Prod.snd, ∀ b ∈ pre.map Prod.snd,
      b - cfg.timeWindow * 1000 < a := by
    intro a ha b hb
    refine hwin a ?_ b (List.mem_append_left _ hb)
    simp only [List.nil_append] at ha
    exact List.mem_append_left _ ha
  have hcountPre : ([] : List Int).length + pre.length ≤ cfg.maxRequests := by
    simp [hlen]
  have hscanPre : ((([] : List String) ++ pre.map Prod.fst).toFinset).card
      ≤ cfg.scanThreshold := by
    refine le_trans (Finset.card_le_card ?_) hscan
    intro x hx
    simp only [List.nil_append] at hx
    rw [List.toFinset_append]
    exact Finset.mem_union_left _ hx
  have hpre := processSeq_ok cfg ip pre ⟨[], [], []⟩ [] [] rfl rfl rfl List.nodup_nil
    hwinPre hcountPre hscanPre
  have hts1 : (mapGet (processSeq cfg ⟨[], [], []⟩ ip pre).2.localRequestCounts ip).getD []
      = pre.map Prod.snd := by
    have := hpre.2.1
    simpa using this
  have hwinLast : ∀ a ∈ pre.map Prod.snd, lastT - cfg.timeWindow * 1000 < a := by
    intro a ha
    exact hwin a (List.mem_append_left _ ha) lastT (List.mem_append_right _ (by simp))
  have hddos := monitorStep_ddos cfg (processSeq cfg ⟨[], [], []⟩ ip pre).2 ip lastRoute lastT
    (pre.map Prod.snd) hts1 hpre.2.2 hwinLast
    (by simp only [List.length_map, hlen]; omega)
  have hb2 : mapGet (monitorStep cfg (processSeq cfg ⟨[], [], []⟩ ip pre).2
      ip lastRoute lastT).2.localBlockedIPs ip
      = some ⟨lastT + 300 * 1000, ("DDoS (Excessive Requests)")⟩ := by
    rw [hddos]
    simp
  refine ⟨hpre.1, ?_, ?_⟩
  · rw [hddos]
  · intro route2 t2 ht2
    exact monitorStep_blocked cfg _ ip route2 t2 _ hb2 ht2

/-- Counterexample to C1 as stated (with no restriction on routes): with
`maxRequests = 2` and `scanThreshold = 1`, an in-window 3-request sequence
already receives a Path Scanning verdict at request 2 ≤ `maxRequests`, and
request `maxRequests + 1` is denied at the gate instead of being classified
rate-abusive and allowed. -/
theorem claim1_counterexample :
    (processSeq ⟨2, 60, 1⟩ ⟨[], [], []⟩ ("8.8.8.8") [(("a"), 0), (("b"), 1), (("c"), 2)]).1 =
      [(StepResult.allowed, []),
       (StepResult.allowed, [⟨("8.8.8.8"), ("Path Scanning"), 1⟩]),
       (StepResult.denied 403 (some ⟨deniedMsg, ("Path Scanning"), 300, 300001⟩), [])] := rfl

/-- Witness for C1 (amended) at `maxRequests = 2`: two in-window requests
pass silently, the third passes but is classified rate-abusive, and a fourth
request before expiry is denied 403. -/
theorem claim1_witness :
    (processSeq ⟨2, 60, 5⟩ ⟨[], [], []⟩ ("1.2.3.4") [(("/"), 0), (("/"), 1)]).1 =
        [(("/"), (0 : Int)), (("/"), 1)].map
          (fun _ => ((StepResult.allowed), ([] : List AttackEvent))) ∧
    (monitorStep ⟨2, 60, 5⟩ (processSeq ⟨2, 60, 5⟩ ⟨[], [], []⟩ ("1.2.3.4")
        [(("/"), 0), (("/"), 1)]).2 ("1.2.3.4") ("/") 2).1 =
      (StepResult.allowed, [⟨("1.2.3.4"), ("DDoS (Excessive Requests)"), 2⟩]) ∧
    monitorStep ⟨2, 60, 5⟩ (monitorStep ⟨2, 60, 5⟩ (processSeq ⟨2, 60, 5⟩ ⟨[], [], []⟩
        ("1.2.3.4") [(("/"), 0), (("/"), 1)]).2 ("1.2.3.4") ("/") 2).2 ("1.2.3.4") ("/x") 100 =
      ((StepResult.denied 403 (some ⟨deniedMsg, ("DDoS (Excessive Requests)"),
          (2 + 300 * 1000 - 100 + 999) / 1000, 2 + 300 * 1000⟩), []),
       (monitorStep ⟨2, 60, 5⟩ (processSeq ⟨2, 60, 5⟩ ⟨[], [], []⟩ ("1.2.3.4")
          [(("/"), 0), (("/"), 1)]).2 ("1.2.3.4") ("/") 2).2) := by
  have h := claim1_rate_limit_trajectory ⟨2, 60, 5⟩ ("1.2.3.4") [(("/"), 0), (("/"), 1)]
    ("/") 2 (by decide) (by decide) (by decide)
  exact ⟨h.1, h.2.1, h.2.2 ("/x") 100 (by decide)⟩

/-- Claim C6 (amended): the ephemeral route set is not windowed — a pass
unions the new route into the accumulated per-identity set and reports that
size of that set, with no dependence on `now` or `timeWindow`, so routes observed
only before `now - timeWindow` keep counting toward the scan comparison until
the identity is blocked (which deletes the set). -/
theorem claim6_routes_not_windowed (cfg : Config) (st : MonitorState) (ip route : String)
    (now : Int) :
    (updateLocalTracking cfg st ip route now).1.2 =
      (jsSetAdd ((mapGet st.localRouteScans ip).getD []) route).length ∧
    mapGet (updateLocalTracking cfg st ip route now).2.localRouteScans ip =
      some (jsSetAdd ((mapGet st.localRouteScans ip).getD []) route) := by
  rw [updateLocalTracking_spec]
  simp

/-- Counterexample to C6 as stated: route "a", observed only at t = 0, is
still a member of the route set at t = 200000 ms (window 60 s), and with
`scanThreshold = 1` it makes the second request scan-abusive even though only
one route was observed within the trailing window. -/
theorem claim6_counterexample :
    (mapGet (processSeq ⟨10, 60, 5⟩ ⟨[], [], []⟩ ("9.9.9.9")
        [(("a"), 0), (("b"), 200000)]).2.localRouteScans ("9.9.9.9")).getD []
      = [("a"), ("b")] ∧
    (processSeq ⟨10, 60, 1⟩ ⟨[], [], []⟩ ("9.9.9.9") [(("a"), 0), (("b"), 200000)]).1 =
      [(StepResult.allowed, []),
       (StepResult.allowed, [⟨("9.9.9.9"), ("Path Scanning"), 200000⟩])] :=
  ⟨rfl, rfl⟩

/-- Claim C5 (amended: only the block-check path fails soft): with the shared
backend unreachable, the pre-request block check catches the backend error
and reports not blocked, but the unguarded counting commands reject the
middleware pass with the backend I/O error instead of defaulting to "no
verdict". -/
theorem claim5_backend_outage (cfg : Config) (redis : RedisState) (ip route : String)
    (now : Int) (h : redis.reachable = false) :
    isIPBlockedShared redis ip = false ∧
    monitorMiddlewareShared cfg redis ip route now = .error redisErr := by
  have hblocked : isIPBlockedShared redis ip = false := by
    simp [isIPBlockedShared, RedisState.get, h]
  refine ⟨hblocked, ?_⟩
  simp [monitorMiddlewareShared, hblocked, RedisState.incr, h, Bind.bind, Except.bind]

/-- Counterexample to C5 as stated: a request through the shared-mode
middleware with the backend unreachable surfaces the backend I/O error to the
caller instead of proceeding with no verdict. -/
theorem claim5_counterexample :
    monitorMiddlewareShared ⟨10, 60, 5⟩ ⟨false, [], [], []⟩ ("1.2.3.4") ("/") 0 =
      .error redisErr := rfl

/-- Witness for C5 (amended) on a concrete unreachable backend. -/
theorem claim5_witness :
    isIPBlockedShared ⟨false, [], [], []⟩ ("6.6.6.6") = false ∧
    monitorMiddlewareShared ⟨10, 60, 5⟩ ⟨false, [], [], []⟩ ("6.6.6.6") ("/x") 0 =
      .error redisErr :=
  claim5_backend_outage ⟨10, 60, 5⟩ ⟨false, [], [], []⟩ ("6.6.6.6") ("/x") 0 rfl

/-- Claim C8: requesting shared-backend mode with a backend connection
parameter absent from both the options and the environment throws at
construction (never silently yielding an ephemeral monitor); ephemeral mode
constructs successfully with no backend parameters at all. -/
theorem claim8_construction_fail_fast (options : Options) (env : Env) :
    (options.saveRecords = some true →
      ((options.mongoURI = none ∧ env.MONGO_URI = none) ∨
       (options.redisURL = none ∧ env.REDIS_URL = none)) →
      APIMonitor.construct options env =
        .error ("mongoURI and redisURL are required when saveRecords is true")) ∧
    ((options.saveRecords = none ∨ options.saveRecords = some false) →
      APIMonitor.construct options env =
        .ok ⟨⟨jsOrNat options.maxRequests 10, jsOrNat options.timeWindow 60,
              jsOrNat options.scanThreshold 5⟩, false, none, none, ⟨[], [], []⟩⟩) := by
  constructor
  · intro hsave hmiss
    unfold APIMonitor.construct
    rw [hsave]
    rcases hmiss with ⟨h1, h2⟩ | ⟨h1, h2⟩ <;> rw [h1, h2] <;> simp [jsOrStr, jsTruthyStr]
  · intro hsave
    unfold APIMonitor.construct
    rcases hsave with h | h <;> rw [h] <;> simp

/-- Witness for C8: shared mode with nothing configured throws; fully default
options construct the ephemeral monitor. -/
theorem claim8_witness :
    APIMonitor.construct ⟨none, none, none, none, none, some true⟩ ⟨none, none⟩ =
      .error ("mongoURI and redisURL are required when saveRecords is true") ∧
    APIMonitor.construct ⟨none, none, none, none, none, none⟩ ⟨none, none⟩ =
      .ok ⟨⟨10, 60, 5⟩, false, none, none, ⟨[], [], []⟩⟩ := by
  refine ⟨(claim8_construction_fail_fast ⟨none, none, none, none, none, some true⟩
    ⟨none, none⟩).1 rfl (Or.inl ⟨rfl, rfl⟩), ?_⟩
  have h := (claim8_construction_fail_fast ⟨none, none, none, none, none, none⟩
    ⟨none, none⟩).2 (Or.inl rfl)
  rw [h]
  rfl

/-- JS number defaulting replaces exactly the falsy values (absence and 0). -/
theorem jsOrNat_falsy {v : Option Nat} {d : Nat} (h : v = none ∨ v = some 0) :
    jsOrNat v d = d := by
  rcases h with h | h <;> simp [jsOrNat, h]

/-- JS number defaulting keeps truthy (nonzero) values. -/
theorem jsOrNat_truthy {v : Option Nat} {d n : Nat} (hn : n ≠ 0) (h : v = some n) :
    jsOrNat v d = n := by
  simp [jsOrNat, h, hn]

/-- JS number defaulting is positive whenever the default is. -/
theorem jsOrNat_pos (v : Option Nat) {d : Nat} (hd : 0 < d) : 0 < jsOrNat v d := by
  rcases v with _ | n
  · simpa [jsOrNat]
  · by_cases hn : n = 0 <;> simp [jsOrNat, hn] <;> omega

/-- Claim C10: a falsy `maxRequests`, `timeWindow`, or `scanThreshold`
(absent or the explicit 0) is silently replaced by its default (10, 60, 5);
truthy values are kept; consequently every monitor the constructor returns
has strictly positive thresholds and window. -/
theorem claim10_falsy_defaults (options : Options) (env : Env) (m : Monitor)
    (h : APIMonitor.construct options env = .ok m) :
    ((options.maxRequests = none ∨ options.maxRequests = some 0) →
        m.cfg.maxRequests = 10) ∧
    ((options.timeWindow = none ∨ options.timeWindow = some 0) →
        m.cfg.timeWindow = 60) ∧
    ((options.scanThreshold = none ∨ options.scanThreshold = some 0) →
        m.cfg.scanThreshold = 5) ∧
    (∀ v, v ≠ 0 → options.maxRequests = some v → m.cfg.maxRequests = v) ∧
    (∀ v, v ≠ 0 → options.timeWindow = some v → m.cfg.timeWindow = v) ∧
    (∀ v, v ≠ 0 → options.scanThreshold = some v → m.cfg.scanThreshold = v) ∧
    0 < m.cfg.maxRequests ∧ 0 < m.cfg.timeWindow ∧ 0 < m.cfg.scanThreshold := by
  have hgoal : ∀ m2 : Monitor,
      m2.cfg = ⟨jsOrNat options.maxRequests 10, jsOrNat options.timeWindow 60,
        jsOrNat options.scanThreshold 5⟩ →
      ((options.maxRequests = none ∨ options.maxRequests = some 0) →
          m2.cfg.maxRequests = 10) ∧
      ((options.timeWindow = none ∨ options.timeWindow = some 0) →
          m2.cfg.timeWindow = 60) ∧
      ((options.scanThreshold = none ∨ options.scanThreshold = some 0) →
          m2.cfg.scanThreshold = 5) ∧
      (∀ v, v ≠ 0 → options.maxRequests = some v → m2.cfg.maxRequests = v) ∧
      (∀ v, v ≠ 0 → options.timeWindow = some v → m2.cfg.timeWindow = v) ∧
      (∀ v, v ≠ 0 → options.scanThreshold = some v → m2.cfg.scanThreshold = v) ∧
      0 < m2.cfg.maxRequests ∧ 0 < m2.cfg.timeWindow ∧ 0 < m2.cfg.scanThreshold := by
    intro m2 hcfg
    rw [hcfg]
    exact ⟨fun hv => jsOrNat_falsy hv, fun hv => jsOrNat_falsy hv,
      fun hv => jsOrNat_falsy hv,
      fun v hv h2 => jsOrNat_truthy hv h2, fun v hv h2 => jsOrNat_truthy hv h2,
      fun v hv h2 => jsOrNat_truthy hv h2,
      jsOrNat_pos _ (by omega), jsOrNat_pos _ (by omega), jsOrNat_pos _ (by omega)⟩
  simp only [APIMonitor.construct] at h
  split at h
  · split at h
    · simp at h
    · rw [Except.ok.injEq] at h
      exact hgoal m (h ▸ rfl)
  · rw [Except.ok.injEq] at h
    exact hgoal m (h ▸ rfl)

/-- Witness for C10: explicit zeroes for all three numeric options construct
the default 10 / 60 / 5 monitor with positive thresholds. -/
theorem claim10_witness :
    (⟨⟨10, 60, 5⟩, false, none, none, ⟨[], [], []⟩⟩ : Monitor).cfg.maxRequests = 10 ∧
    0 < (⟨⟨10, 60, 5⟩, false, none, none, ⟨[], [], []⟩⟩ : Monitor).cfg.scanThreshold := by
  have h := claim10_falsy_defaults ⟨none, none, some 0, some 0, some 0, none⟩ ⟨none, none⟩
    ⟨⟨10, 60, 5⟩, false, none, none, ⟨[], [], []⟩⟩ rfl
  exact ⟨h.1 (Or.inr rfl), h.2.2.2.2.2.2.2.2⟩

/-- Claim C9 (amended: the forwarded-for header is used only when present
AND non-empty — an empty header is falsy in JS and falls through): the
resolver is total; a non-empty `x-forwarded-for` yields its trimmed first
comma-separated value; otherwise the precedence is `x-real-ip`, then the
connection and socket peer addresses, then `req.ip`, then the fixed fallback
`0.0.0.0`; normalisation afterwards maps `::1` and `::ffff:127.0.0.1` to
`127.0.0.1` and strips any other `::ffff:` prefix. -/
theorem claim9_identity_resolution (req : Request) :
    (∀ s, req.xForwardedFor = some s → s ≠ "" →
      getClientIP req = normalizeIP (jsTrim (jsSplitFirstComma s))) ∧
    ((req.xForwardedFor = none ∨ req.xForwardedFor = some ("")) →
      ((∀ s, req.xRealIP = some s → s ≠ "" → getClientIP req = normalizeIP s) ∧
       ((req.xRealIP = none ∨ req.xRealIP = some ("")) →
        ((∀ s, req.connectionRemoteAddress = some s → s ≠ "" →
            getClientIP req = normalizeIP s) ∧
         ((req.connectionRemoteAddress = none ∨ req.connectionRemoteAddress = some ("")) →
          ((∀ s, req.socketRemoteAddress = some s → s ≠ "" →
              getClientIP req = normalizeIP s) ∧
           ((req.socketRemoteAddress = none ∨ req.socketRemoteAddress = some ("")) →
            ((∀ s, req.reqIp = some s → s ≠ "" → getClientIP req = normalizeIP s) ∧
             ((req.reqIp = none ∨ req.reqIp = some ("")) →
              getClientIP req = "0.0.0.0"))))))))) ∧
    (normalizeIP ("::1") = "127.0.0.1" ∧ normalizeIP ("::ffff:127.0.0.1") = "127.0.0.1") ∧
    (∀ s, jsStartsWith s ("::ffff:") = true → ¬ (s = "::1" ∨ s = "::ffff:127.0.0.1") →
      normalizeIP s = jsSubstringFrom s 7) := by
  have hfalsy : ∀ v : Option String, (v = none ∨ v = some ("")) → jsTruthyStr v = false := by
    intro v hv
    rcases hv with h | h <;> rw [h] <;> simp [jsTruthyStr]
  have htruthy : ∀ s : String, s ≠ "" → jsTruthyStr (some s) = true := by
    intro s hs
    simp [jsTruthyStr, hs]
  refine ⟨?_, ?_, ⟨rfl, rfl⟩, ?_⟩
  · intro s hs hne
    simp [getClientIP, hs, htruthy s hne]
  · intro h1
    refine ⟨?_, ?_⟩
    · intro s hs hne
      simp [getClientIP, hfalsy _ h1, jsOrDefault, hs, htruthy s hne]
    · intro h2
      refine ⟨?_, ?_⟩
      · intro s hs hne
        simp [getClientIP, hfalsy _ h1, jsOrDefault, hfalsy _ h2, hs, htruthy s hne]
      · intro h3
        refine ⟨?_, ?_⟩
        · intro s hs hne
          simp [getClientIP, hfalsy _ h1, jsOrDefault, hfalsy _ h2, hfalsy _ h3, hs,
            htruthy s hne]
        · intro h4
          refine ⟨?_, ?_⟩
          · intro s hs hne
            simp [getClientIP, hfalsy _ h1, jsOrDefault, hfalsy _ h2, hfalsy _ h3,
              hfalsy _ h4, hs, htruthy s hne]
          · intro h5
            simp [getClientIP, hfalsy _ h1, jsOrDefault, hfalsy _ h2, hfalsy _ h3,
              hfalsy _ h4, hfalsy _ h5]
            rfl
  · intro s hsw hnot
    unfold normalizeIP
    rw [if_neg hnot, if_pos hsw]

/-- Counterexample to C9 as stated: a present-but-empty `x-forwarded-for`
header is falsy, so the resolver falls through to `x-real-ip` instead of
returning the (empty) trimmed first comma-separated value of the header. -/
theorem claim9_counterexample :
    getClientIP ⟨some (""), some ("10.0.0.5"), none, none, none⟩ = "10.0.0.5" ∧
    normalizeIP (jsTrim (jsSplitFirstComma (""))) = "" :=
  ⟨rfl, rfl⟩

/-- Witness for C9 (amended): a padded forwarded list resolves to its first
entry (normalised), a lone real-IP header wins next, and no sources at all
give the fallback. -/
theorem claim9_witness :
    getClientIP ⟨some (" ::ffff:9.9.9.9 , 10.0.0.1"), none, none, none, none⟩ =
      normalizeIP (jsTrim (jsSplitFirstComma (" ::ffff:9.9.9.9 , 10.0.0.1"))) ∧
    getClientIP ⟨none, some ("1.2.3.4"), none, none, none⟩ = normalizeIP ("1.2.3.4") ∧
    getClientIP ⟨none, none, none, none, none⟩ = "0.0.0.0" := by
  have h1 := claim9_identity_resolution
    ⟨some (" ::ffff:9.9.9.9 , 10.0.0.1"), none, none, none, none⟩
  have h2 := claim9_identity_resolution ⟨none, some ("1.2.3.4"), none, none, none⟩
  have h3 := claim9_identity_resolution ⟨none, none, none, none, none⟩
  refine ⟨h1.1 _ rfl (by decide), (h2.2.1 (Or.inl rfl)).1 _ rfl (by decide), ?_⟩
  exact ((((h3.2.1 (Or.inl rfl)).2 (Or.inl rfl)).2 (Or.inl rfl)).2 (Or.inl rfl)).2
    (Or.inl rfl)

end APISecurityMonitor
